import Mathlib

/-!
Shallow embedding of the S9 configuration resolution and validation logic
(`bosminer-am1-s9/src/config.rs`) together with theorems about it.

Rust machine types are embedded as follows: `usize` as `Nat` (parsing
checks the 64-bit bound explicitly where the source relies on it), `f32`
scalars as `ℚ` (the resolution layer only selects and compares values;
the single arithmetic step, the MHz-to-Hz conversion, is exact at every
value the development evaluates), `HashMap<String, _>` as an association
list queried with `List.lookup`, and fallible code as `Except String`.
The `warn!` advisories emitted by `resolve_monitor_config` are returned
as an explicit list instead of being sent to the out-of-scope logger.
Pool/client descriptor handling in `Backend::parse` is out of scope per
the specification (external URL-parsing collaborator) and is omitted.
-/

namespace S9Config

/-- Expected configuration version (`FORMAT_VERSION`). -/
def FORMAT_VERSION : String := "beta"

/-- Expected configuration model (`FORMAT_MODEL`). -/
def FORMAT_MODEL : String := "Antminer S9"

/-- Default number of midstates when AsicBoost is enabled. -/
def ASIC_BOOST_MIDSTATE_COUNT : Nat := 4

/-- Default AsicBoost setting. -/
def DEFAULT_ASIC_BOOST : Bool := true

/-- Default PLL frequency for clocking the chips in MHz. -/
def DEFAULT_FREQUENCY : ℚ := 650

/-- Default voltage (8.8 V; written with `mkRat` because the `Div`
instance on `ℚ` is irreducible and would block evaluation). -/
def DEFAULT_VOLTAGE : ℚ := mkRat 44 5

/-- Default temperatures for temperature control. -/
def DEFAULT_TARGET_TEMP : ℚ := 75

/-- Default hot temperature. -/
def DEFAULT_HOT_TEMP : ℚ := 95

/-- Default dangerous temperature. -/
def DEFAULT_DANGEROUS_TEMP : ℚ := 105

/-- Default fan speed for manual target speed. -/
def DEFAULT_FAN_SPEED : Nat := 100

/-- Default minimal running fans for monitoring. -/
def DEFAULT_MIN_FANS : Nat := 1

/-- Lower bound of the hash chain index range. -/
def HASH_CHAIN_INDEX_MIN : Nat := 1

/-- Upper bound of the hash chain index range. -/
def HASH_CHAIN_INDEX_MAX : Nat := 9

/-- Temperature control mode (`TempControlMode`). -/
inductive TempControlMode where
  | Auto
  | Manual
  | Disable
deriving DecidableEq

/-- Default temperature control mode. -/
def DEFAULT_TEMP_CONTROL_MODE : TempControlMode := TempControlMode.Auto

/-- Modelled from the spec: the tri-state override primitive
(`support::OptionDefault`, module `config/support.rs` not under `src/`).
It wraps a resolved scalar value together with provenance: `some v` means
the user explicitly supplied `v`, `default d` means the value fell back to
the compiled-in default `d`. -/
inductive OptionDefault (α : Type) where
  | some (v : α)
  | default (v : α)
deriving DecidableEq

namespace OptionDefault

/-- Modelled from the spec: build the tri-state from an optional
user-supplied value and a default. -/
def new {α : Type} : Option α → α → OptionDefault α
  | Option.some v, _ => OptionDefault.some v
  | Option.none, d => OptionDefault.default d

/-- Modelled from the spec: the resolved value, always present
(the `Deref` impl of `support::OptionDefault`). -/
def value {α : Type} : OptionDefault α → α
  | OptionDefault.some v => v
  | OptionDefault.default v => v

/-- Modelled from the spec: the predicate "was this value explicitly
supplied", used solely to drive advisory diagnostics. -/
def is_some {α : Type} : OptionDefault α → Bool
  | OptionDefault.some _ => true
  | OptionDefault.default _ => false

/-- Modelled from the spec: `eq_some` combines the explicitly-supplied
predicate with equality to a given value (used by the "both fan settings
are zero" check). -/
def eq_some {α : Type} [DecidableEq α] : OptionDefault α → α → Bool
  | OptionDefault.some v, x => decide (v = x)
  | OptionDefault.default _, _ => false

end OptionDefault

/-- Modelled from the spec: the driver's midstate-count representation
(`bm1387::MidstateCount`, not under `src/`); only the count it carries is
relevant here. -/
structure MidstateCount where
  count : Nat
deriving DecidableEq

/-- Modelled from the spec: constructor of `bm1387::MidstateCount`. -/
def MidstateCount.new (count : Nat) : MidstateCount := ⟨count⟩

/-- Modelled from the spec: the driver's native frequency representation
(`crate::FrequencySettings`, not under `src/`); it carries the frequency
in the driver's native unit (Hz). -/
structure FrequencySettings where
  hz : Nat
deriving DecidableEq

/-- Modelled from the spec: constructor `FrequencySettings::from_frequency`. -/
def FrequencySettings.from_frequency (hz : Nat) : FrequencySettings := ⟨hz⟩

namespace power

/-- Modelled from the spec: lower bound of the physically valid voltage
range of the voltage controller (`power.rs`, not under `src/`; the spec
names the range but not its bounds — the bounds here are representative
values containing the default 8.8 V). -/
def VOLTAGE_VALID_MIN : ℚ := mkRat 17 2

/-- Modelled from the spec: upper bound of the physically valid voltage
range (see `VOLTAGE_VALID_MIN`). -/
def VOLTAGE_VALID_MAX : ℚ := mkRat 19 2

/-- Modelled from the spec: membership in the physically valid voltage range. -/
def voltageInRange (v : ℚ) : Bool :=
  decide (VOLTAGE_VALID_MIN ≤ v ∧ v ≤ VOLTAGE_VALID_MAX)

/-- Modelled from the spec: the driver's validated voltage representation
(`power::Voltage`, not under `src/`). -/
structure Voltage where
  volts : ℚ
deriving DecidableEq

/-- Modelled from the spec: `power::Voltage::from_volts` — conversion into
the validated representation, failing when the value lies outside the
physically valid voltage range. -/
def Voltage.from_volts (v : ℚ) : Except String Voltage :=
  if voltageInRange v then Except.ok ⟨v⟩ else Except.error "bad voltage requested"

end power

namespace fan

/-- Modelled from the spec: fan speed representation (`fan::Speed`, not
under `src/`). -/
structure Speed where
  pwm : Nat
deriving DecidableEq

/-- Modelled from the spec: constructor `fan::Speed::new`. -/
def Speed.new (pwm : Nat) : Speed := ⟨pwm⟩

end fan

namespace monitor

/-- Modelled from the spec: thermal configuration consumed by the monitor
(`monitor::TempControlConfig`, not under `src/`). -/
structure TempControlConfig where
  dangerous_temp : ℚ
  hot_temp : ℚ
deriving DecidableEq

/-- Modelled from the spec: fan control mode consumed by the monitor
(`monitor::FanControlMode`): target-temperature-driven or fixed speed. -/
inductive FanControlMode where
  | TargetTemperature (t : ℚ)
  | FixedSpeed (s : fan.Speed)
deriving DecidableEq

/-- Modelled from the spec: fan configuration consumed by the monitor
(`monitor::FanControlConfig`). -/
structure FanControlConfig where
  mode : FanControlMode
  min_fans : Nat
deriving DecidableEq

/-- Modelled from the spec: the resolved monitor configuration
(`monitor::Config`). -/
structure Config where
  temp_config : Option TempControlConfig
  fan_config : Option FanControlConfig
deriving DecidableEq

end monitor

/-- Advisory diagnostics emitted via `warn!` by `resolve_monitor_config`
(the logging subsystem itself is out of scope; we record which advisory
fired and the value the source interpolates into the message — note the
source prints `*hot_temp` in the `dangerous_temp` advisory and
`*fan_speed` in the `target_temp` advisory). -/
inductive Advisory where
  | UnusedHotTemp (v : ℚ)
  | UnusedDangerousTemp (v : ℚ)
  | UnusedFanSpeed (v : Nat)
  | UnusedTargetTemp (v : Nat)
deriving DecidableEq

/-- Configuration format header (`Format`). -/
structure Format where
  version : String
  model : String
  generator : Option String
  timestamp : Option Nat
deriving DecidableEq

/-- Per-chain overridable settings (`HashChain`). -/
structure HashChain where
  frequency : Option ℚ
  voltage : Option ℚ
deriving DecidableEq

/-- Global hash chain settings (`HashChainGlobal`): the boost flag and the
flattened overridable frequency/voltage pair. -/
structure HashChainGlobal where
  asic_boost : Option Bool
  overridable : Option HashChain
deriving DecidableEq

/-- Temperature control section (`TempControl`). -/
structure TempControl where
  mode : Option TempControlMode
  target_temp : Option ℚ
  hot_temp : Option ℚ
  dangerous_temp : Option ℚ
deriving DecidableEq

/-- Fan control section (`FanControl`). -/
structure FanControl where
  speed : Option Nat
  min_fans : Option Nat
deriving DecidableEq

/-- Top-level decoded configuration (`Backend`); the `HashMap` of per-chain
overrides is embedded as an association list. Pool/client fields are out
of scope (external URL-parsing collaborator) and omitted. -/
structure Backend where
  format : Format
  hash_chain_global : Option HashChainGlobal
  hash_chains : Option (List (String × HashChain))
  temp_control : Option TempControl
  fan_control : Option FanControl
deriving DecidableEq

/-- Resolved per-chain configuration (`ResolvedChainConfig`). -/
structure ResolvedChainConfig where
  midstate_count : MidstateCount
  frequency : FrequencySettings
  voltage : power.Voltage
deriving DecidableEq

/-- MHz-to-Hz conversion followed by the Rust saturating cast `as usize`
(`(*frequency * 1_000_000.0) as usize`): truncation of `q * 1000000`
toward zero, clamped at zero for negative values. It is computed on the
numerator and denominator directly (`Int.tdiv` rounds toward zero, and
`Int.toNat` clamps negatives to zero) because the `Mul` instance on `ℚ`
is irreducible and would block evaluation. -/
def mhzToHz (q : ℚ) : Nat := (Int.tdiv (q.num * 1000000) (q.den : Int)).toNat

/-- Midstate count derivation (`Backend::midstate_count`): the global
boost flag, defaulted to `DEFAULT_ASIC_BOOST`, selects between the boosted
and the minimal count. -/
def Backend.midstate_count (self : Backend) : Nat :=
  if (self.hash_chain_global.bind HashChainGlobal.asic_boost).getD DEFAULT_ASIC_BOOST then
    ASIC_BOOST_MIDSTATE_COUNT
  else
    1

/-- Global frequency layered over the default (`resolve_chain_config`,
first `OptionDefault::new` call). -/
def Backend.globalFrequency (self : Backend) : OptionDefault ℚ :=
  OptionDefault.new
    ((self.hash_chain_global.bind HashChainGlobal.overridable).bind HashChain.frequency)
    DEFAULT_FREQUENCY

/-- Global voltage layered over the default (`resolve_chain_config`,
second `OptionDefault::new` call). -/
def Backend.globalVoltage (self : Backend) : OptionDefault ℚ :=
  OptionDefault.new
    ((self.hash_chain_global.bind HashChainGlobal.overridable).bind HashChain.voltage)
    DEFAULT_VOLTAGE

/-- Per-chain override lookup (`self.hash_chains.get(&hash_chain_idx.to_string())`). -/
def Backend.chainOverride (self : Backend) (hash_chain_idx : Nat) : Option HashChain :=
  self.hash_chains.bind (fun m => List.lookup (toString hash_chain_idx) m)

/-- Frequency after applying the per-chain override, if any
(`resolve_chain_config`, the `if let Some(hash_chain)` block). -/
def Backend.chainFrequency (self : Backend) (hash_chain_idx : Nat) : OptionDefault ℚ :=
  match self.chainOverride hash_chain_idx with
  | Option.some hash_chain =>
      (hash_chain.frequency.map OptionDefault.some).getD self.globalFrequency
  | Option.none => self.globalFrequency

/-- Voltage after applying the per-chain override, if any. -/
def Backend.chainVoltage (self : Backend) (hash_chain_idx : Nat) : OptionDefault ℚ :=
  match self.chainOverride hash_chain_idx with
  | Option.some hash_chain =>
      (hash_chain.voltage.map OptionDefault.some).getD self.globalVoltage
  | Option.none => self.globalVoltage

/-- Per-chain resolution (`Backend::resolve_chain_config`). The source
panics (`.expect("bad voltage requested")`) when the voltage conversion
fails; the panic is embedded as a fatal `Except.error`. -/
def Backend.resolve_chain_config (self : Backend) (hash_chain_idx : Nat) :
    Except String ResolvedChainConfig :=
  match power.Voltage.from_volts (self.chainVoltage hash_chain_idx).value with
  | Except.error e => Except.error e
  | Except.ok voltage =>
      Except.ok
        { midstate_count := MidstateCount.new self.midstate_count
          frequency :=
            FrequencySettings.from_frequency (mhzToHz (self.chainFrequency hash_chain_idx).value)
          voltage := voltage }

/-- Temperature control mode layered over the default
(`resolve_monitor_config`, `mode`). -/
def Backend.mode (self : Backend) : OptionDefault TempControlMode :=
  OptionDefault.new (self.temp_control.bind TempControl.mode) DEFAULT_TEMP_CONTROL_MODE

/-- Target temperature layered over the default. -/
def Backend.target_temp (self : Backend) : OptionDefault ℚ :=
  OptionDefault.new (self.temp_control.bind TempControl.target_temp) DEFAULT_TARGET_TEMP

/-- Hot temperature layered over the default. -/
def Backend.hot_temp (self : Backend) : OptionDefault ℚ :=
  OptionDefault.new (self.temp_control.bind TempControl.hot_temp) DEFAULT_HOT_TEMP

/-- Dangerous temperature layered over the default. -/
def Backend.dangerous_temp (self : Backend) : OptionDefault ℚ :=
  OptionDefault.new (self.temp_control.bind TempControl.dangerous_temp) DEFAULT_DANGEROUS_TEMP

/-- Fan speed layered over the default. -/
def Backend.fan_speed (self : Backend) : OptionDefault Nat :=
  OptionDefault.new (self.fan_control.bind FanControl.speed) DEFAULT_FAN_SPEED

/-- Minimal running fans layered over the default. -/
def Backend.min_fans (self : Backend) : OptionDefault Nat :=
  OptionDefault.new (self.fan_control.bind FanControl.min_fans) DEFAULT_MIN_FANS

/-- Resolved temperature control mode (the value of `Backend.mode`). -/
def Backend.resolvedMode (self : Backend) : TempControlMode :=
  self.mode.value

/-- Resolved target temperature. -/
def Backend.resolvedTargetTemp (self : Backend) : ℚ :=
  self.target_temp.value

/-- Resolved hot temperature. -/
def Backend.resolvedHotTemp (self : Backend) : ℚ :=
  self.hot_temp.value

/-- Resolved dangerous temperature. -/
def Backend.resolvedDangerousTemp (self : Backend) : ℚ :=
  self.dangerous_temp.value

/-- Resolved fan speed. -/
def Backend.resolvedFanSpeed (self : Backend) : Nat :=
  self.fan_speed.value

/-- Resolved minimal running fans. -/
def Backend.resolvedMinFans (self : Backend) : Nat :=
  self.min_fans.value

/-- Monitor resolution (`Backend::resolve_monitor_config`): the thermal
branch and the fan branch each switch on the resolved mode; the advisories
the source sends to `warn!` are returned alongside the configuration. -/
def Backend.resolve_monitor_config (self : Backend) : monitor.Config × List Advisory :=
  let temp :=
    match self.resolvedMode with
    | TempControlMode.Auto | TempControlMode.Manual =>
        (Option.some
           { dangerous_temp := self.resolvedDangerousTemp
             hot_temp := self.resolvedHotTemp
             : monitor.TempControlConfig },
         ([] : List Advisory))
    | TempControlMode.Disable =>
        (Option.none,
         (if self.hot_temp.is_some then [Advisory.UnusedHotTemp self.resolvedHotTemp] else []) ++
           (if self.dangerous_temp.is_some then
             [Advisory.UnusedDangerousTemp self.resolvedHotTemp]
           else
             []))
  let fanp :=
    match self.resolvedMode with
    | TempControlMode.Auto =>
        (Option.some
           { mode := monitor.FanControlMode.TargetTemperature self.resolvedTargetTemp
             min_fans := self.resolvedMinFans
             : monitor.FanControlConfig },
         if self.fan_speed.is_some then [Advisory.UnusedFanSpeed self.resolvedFanSpeed] else [])
    | TempControlMode.Manual | TempControlMode.Disable =>
        ((if self.fan_speed.eq_some 0 && self.min_fans.eq_some 0 then
            Option.none
          else
            Option.some
              { mode := monitor.FanControlMode.FixedSpeed (fan.Speed.new self.resolvedFanSpeed)
                min_fans := self.resolvedMinFans
                : monitor.FanControlConfig }),
         if self.target_temp.is_some then [Advisory.UnusedTargetTemp self.resolvedFanSpeed] else [])
  ({ temp_config := temp.1, fan_config := fanp.1 }, temp.2 ++ fanp.2)

/-- Accumulate the value of a digit string (helper for `parseUsize`);
returns `none` on the first non-digit character. -/
def digitsVal : List Char → Nat → Option Nat
  | [], acc => Option.some acc
  | c :: cs, acc =>
      if c.isDigit then digitsVal cs (acc * 10 + (c.toNat - 48)) else Option.none

/-- Rust `str::parse::<usize>` on a 64-bit target: an optional leading
`+`, then one or more decimal digits, rejecting values that overflow
`usize`. -/
def parseUsize (s : String) : Option Nat :=
  let chars :=
    match s.data with
    | '+' :: cs => cs
    | cs => cs
  match chars with
  | [] => Option.none
  | _ =>
      match digitsVal chars 0 with
      | Option.some n => if n < 2 ^ 64 then Option.some n else Option.none
      | Option.none => Option.none

/-- Validity of one per-chain key (`Backend::parse`, key loop body): it
must parse as an integer lying in the hash chain index range. -/
def validChainKey (s : String) : Bool :=
  match parseUsize s with
  | Option.some n => decide (HASH_CHAIN_INDEX_MIN ≤ n ∧ n ≤ HASH_CHAIN_INDEX_MAX)
  | Option.none => false

/-- Key validation loop of `Backend::parse`: fail on the first key that is
not a number or is out of range. -/
def checkHashChainKeys : List (String × HashChain) → Except String Unit
  | [] => Except.ok ()
  | (idx, _) :: rest =>
      match parseUsize idx with
      | Option.none => Except.error ("hash chain index " ++ idx ++ " is not number")
      | Option.some n =>
          if HASH_CHAIN_INDEX_MIN ≤ n ∧ n ≤ HASH_CHAIN_INDEX_MAX then
            checkHashChainKeys rest
          else
            Except.error ("hash chain index " ++ toString n ++ " is out of range")

/-- Top-level validation (`Backend::parse`, after the out-of-scope file
decode): model check, then version check, then per-chain key validation. -/
def Backend.parse (backend_config : Backend) : Except String Backend :=
  if backend_config.format.model ≠ FORMAT_MODEL then
    Except.error ("incompatible format model " ++ backend_config.format.model)
  else if backend_config.format.version ≠ FORMAT_VERSION then
    Except.error ("incompatible format version " ++ backend_config.format.version)
  else
    match backend_config.hash_chains with
    | Option.some hash_chains =>
        match checkHashChainKeys hash_chains with
        | Except.ok _ => Except.ok backend_config
        | Except.error e => Except.error e
    | Option.none => Except.ok backend_config

/-- Replace the supplied fan speed, keeping every other field (used to
state that the fan speed cannot influence the resolved fan configuration
in Auto mode). -/
def Backend.withFanSpeed (self : Backend) (speed : Option Nat) : Backend :=
  { self with
    fan_control :=
      Option.some { speed := speed, min_fans := self.fan_control.bind FanControl.min_fans } }

/-- Configuration whose format header is the expected one and everything
else is absent; base for the concrete configurations below. -/
def emptyBackend : Backend :=
  { format :=
      { version := FORMAT_VERSION
        model := FORMAT_MODEL
        generator := Option.none
        timestamp := Option.none }
    hash_chain_global := Option.none
    hash_chains := Option.none
    temp_control := Option.none
    fan_control := Option.none }

/-- Per-unit entry used by the C1 witness: frequency overridden, voltage absent. -/
def overrideChain : HashChain := { frequency := Option.some 700, voltage := Option.none }

/-- Configuration used by the C1 witness: global override supplies both
fields, unit 2 overrides only the frequency. -/
def backendC1 : Backend :=
  { emptyBackend with
    hash_chain_global :=
      Option.some
        { asic_boost := Option.none
          overridable := Option.some { frequency := Option.some 600, voltage := Option.some 9 } }
    hash_chains := Option.some [("2", overrideChain)] }

/-- Configuration used by the C10 witness: same global section and same
entry for unit 1 as `backendC10b`, but a different entry for unit 3. -/
def backendC10a : Backend :=
  { emptyBackend with
    hash_chains :=
      Option.some
        [("1", { frequency := Option.some 550, voltage := Option.none }),
         ("3", { frequency := Option.some 500, voltage := Option.none })] }

/-- Counterpart of `backendC10a` differing only in units other than 1. -/
def backendC10b : Backend :=
  { emptyBackend with
    hash_chains :=
      Option.some
        [("1", { frequency := Option.some 550, voltage := Option.none }),
         ("4", { frequency := Option.some 450, voltage := Option.some 9 })] }

/-- Configuration used by the C2 witness: Manual mode, explicit fan speed
0, explicit min_fans 1. -/
def backendC2 : Backend :=
  { emptyBackend with
    temp_control :=
      Option.some
        { mode := Option.some TempControlMode.Manual
          target_temp := Option.none
          hot_temp := Option.none
          dangerous_temp := Option.none }
    fan_control := Option.some { speed := Option.some 0, min_fans := Option.some 1 } }

/-- Configuration used by the C5 witness: Auto mode with an explicitly
supplied fan speed of 50. -/
def backendC5 : Backend :=
  { emptyBackend with
    temp_control :=
      Option.some
        { mode := Option.some TempControlMode.Auto
          target_temp := Option.none
          hot_temp := Option.none
          dangerous_temp := Option.none }
    fan_control := Option.some { speed := Option.some 50, min_fans := Option.none } }

/-- Configuration used by the C3 witness: keys "5" (valid) and "abc"
(non-numeric). -/
def backendC3 : Backend :=
  { emptyBackend with
    hash_chains :=
      Option.some
        [("5", { frequency := Option.none, voltage := Option.none }),
         ("abc", { frequency := Option.none, voltage := Option.none })] }

/-- Configuration used by the C8 witness: wrong model string. -/
def backendC8 : Backend :=
  { emptyBackend with
    format :=
      { version := FORMAT_VERSION
        model := "Wrong Model"
        generator := Option.none
        timestamp := Option.none } }

theorem OptionDefault.value_new {α : Type} (o : Option α) (d : α) :
    (OptionDefault.new o d).value = o.getD d := by
  cases o <;> rfl

theorem OptionDefault.eq_some_new {α : Type} [DecidableEq α] (o : Option α) (d x : α)
    (hd : d ≠ x) : (OptionDefault.new o d).eq_some x = decide ((OptionDefault.new o d).value = x) := by
  cases o with
  | none => simp [OptionDefault.new, OptionDefault.eq_some, OptionDefault.value, hd]
  | some v => rfl

theorem power.from_volts_ok_volts (x : ℚ) (v : power.Voltage)
    (h : power.Voltage.from_volts x = Except.ok v) : v.volts = x := by
  unfold power.Voltage.from_volts at h
  split at h
  · cases h; rfl
  · cases h

theorem power.from_volts_spec (x : ℚ) :
    power.Voltage.from_volts x =
      (if power.voltageInRange x then Except.ok ⟨x⟩ else Except.error "bad voltage requested") :=
  rfl

theorem Backend.globalFrequency_value (b : Backend) :
    b.globalFrequency.value =
      ((b.hash_chain_global.bind HashChainGlobal.overridable).bind HashChain.frequency).getD
        DEFAULT_FREQUENCY :=
  OptionDefault.value_new _ _

theorem Backend.globalVoltage_value (b : Backend) :
    b.globalVoltage.value =
      ((b.hash_chain_global.bind HashChainGlobal.overridable).bind HashChain.voltage).getD
        DEFAULT_VOLTAGE :=
  OptionDefault.value_new _ _

theorem Backend.resolve_chain_config_ok (b : Backend) (idx : Nat) (cfg : ResolvedChainConfig)
    (h : b.resolve_chain_config idx = Except.ok cfg) :
    cfg.midstate_count = MidstateCount.new b.midstate_count ∧
      cfg.frequency = FrequencySettings.from_frequency (mhzToHz (b.chainFrequency idx).value) ∧
      cfg.voltage.volts = (b.chainVoltage idx).value := by
  unfold Backend.resolve_chain_config at h
  cases hv : power.Voltage.from_volts (b.chainVoltage idx).value with
  | error e => rw [hv] at h; cases h
  | ok v =>
      rw [hv] at h
      cases h
      exact ⟨rfl, rfl, power.from_volts_ok_volts _ _ hv⟩

/-- C1: when the per-unit override table has an entry under the unit's
decimal-string key, each field present in that entry is the resolved
value, overriding both the global override and the default; an absent
field falls back to the global-override-over-default resolution — and the
resolved chain configuration is built from exactly these values. -/
theorem per_chain_override_precedence (b : Backend) (idx : Nat) (hc : HashChain)
    (h : b.chainOverride idx = Option.some hc) :
    (b.chainFrequency idx).value =
        hc.frequency.getD
          (((b.hash_chain_global.bind HashChainGlobal.overridable).bind HashChain.frequency).getD
            DEFAULT_FREQUENCY) ∧
      (b.chainVoltage idx).value =
        hc.voltage.getD
          (((b.hash_chain_global.bind HashChainGlobal.overridable).bind HashChain.voltage).getD
            DEFAULT_VOLTAGE) ∧
      ∀ cfg, b.resolve_chain_config idx = Except.ok cfg →
        cfg.frequency = FrequencySettings.from_frequency (mhzToHz (b.chainFrequency idx).value) ∧
          cfg.voltage.volts = (b.chainVoltage idx).value := by
  refine ⟨?_, ?_, fun cfg hcfg => (Backend.resolve_chain_config_ok b idx cfg hcfg).2⟩
  · unfold Backend.chainFrequency
    rw [h]
    cases hf : hc.frequency with
    | none => simp [hf, Backend.globalFrequency_value]
    | some f => simp [hf, OptionDefault.value]
  · unfold Backend.chainVoltage
    rw [h]
    cases hv : hc.voltage with
    | none => simp [hv, Backend.globalVoltage_value]
    | some v => simp [hv, OptionDefault.value]

theorem per_chain_override_precedence_wit :
    (backendC1.chainFrequency 2).value =
        overrideChain.frequency.getD
          (((backendC1.hash_chain_global.bind HashChainGlobal.overridable).bind
              HashChain.frequency).getD DEFAULT_FREQUENCY) ∧
      (backendC1.chainVoltage 2).value =
        overrideChain.voltage.getD
          (((backendC1.hash_chain_global.bind HashChainGlobal.overridable).bind
              HashChain.voltage).getD DEFAULT_VOLTAGE) ∧
      ({ midstate_count := MidstateCount.new 4
         frequency := FrequencySettings.from_frequency 700000000
         voltage := ⟨9⟩ } : ResolvedChainConfig).frequency =
          FrequencySettings.from_frequency (mhzToHz (backendC1.chainFrequency 2).value) ∧
        ({ midstate_count := MidstateCount.new 4
           frequency := FrequencySettings.from_frequency 700000000
           voltage := ⟨9⟩ } : ResolvedChainConfig).voltage.volts =
          (backendC1.chainVoltage 2).value :=
  ⟨(per_chain_override_precedence backendC1 2 overrideChain rfl).1,
    (per_chain_override_precedence backendC1 2 overrideChain rfl).2.1,
    (per_chain_override_precedence backendC1 2 overrideChain rfl).2.2 _ rfl⟩

/-- C9: with no per-unit entry and no global override, a unit resolves to
the compiled-in defaults: frequency 650 MHz converted to Hz by the factor
1,000,000 and voltage 8.8 V converted into the driver representation. -/
theorem default_table_resolution (b : Backend) (idx : Nat)
    (hno : b.chainOverride idx = Option.none)
    (hgf : (b.hash_chain_global.bind HashChainGlobal.overridable).bind HashChain.frequency =
      Option.none)
    (hgv : (b.hash_chain_global.bind HashChainGlobal.overridable).bind HashChain.voltage =
      Option.none) :
    b.resolve_chain_config idx =
        Except.ok
          { midstate_count := MidstateCount.new b.midstate_count
            frequency := FrequencySettings.from_frequency (mhzToHz DEFAULT_FREQUENCY)
            voltage := ⟨DEFAULT_VOLTAGE⟩ } ∧
      mhzToHz DEFAULT_FREQUENCY = 650000000 ∧
      power.Voltage.from_volts DEFAULT_VOLTAGE = Except.ok ⟨DEFAULT_VOLTAGE⟩ := by
  have hf : b.chainFrequency idx = OptionDefault.default DEFAULT_FREQUENCY := by
    unfold Backend.chainFrequency
    rw [hno]
    unfold Backend.globalFrequency
    rw [hgf]
    rfl
  have hv : b.chainVoltage idx = OptionDefault.default DEFAULT_VOLTAGE := by
    unfold Backend.chainVoltage
    rw [hno]
    unfold Backend.globalVoltage
    rw [hgv]
    rfl
  refine ⟨?_, by decide, rfl⟩
  unfold Backend.resolve_chain_config
  rw [hf, hv]
  rfl

theorem default_table_resolution_wit :
    emptyBackend.resolve_chain_config 3 =
        Except.ok
          { midstate_count := MidstateCount.new emptyBackend.midstate_count
            frequency := FrequencySettings.from_frequency (mhzToHz DEFAULT_FREQUENCY)
            voltage := ⟨DEFAULT_VOLTAGE⟩ } ∧
      mhzToHz DEFAULT_FREQUENCY = 650000000 ∧
      power.Voltage.from_volts DEFAULT_VOLTAGE = Except.ok ⟨DEFAULT_VOLTAGE⟩ :=
  default_table_resolution emptyBackend 3 rfl rfl rfl

/-- C10: the configuration resolved for unit `idx` depends only on the
global override section and on the per-unit table entry at the decimal
key of `idx`; configurations agreeing there resolve identically. -/
theorem resolve_chain_config_noninterference (b1 b2 : Backend) (idx : Nat)
    (hg : b1.hash_chain_global = b2.hash_chain_global)
    (he : b1.chainOverride idx = b2.chainOverride idx) :
    b1.resolve_chain_config idx = b2.resolve_chain_config idx := by
  have hmid : b1.midstate_count = b2.midstate_count := by
    unfold Backend.midstate_count
    rw [hg]
  have hf : b1.chainFrequency idx = b2.chainFrequency idx := by
    unfold Backend.chainFrequency Backend.globalFrequency
    rw [hg, he]
  have hv : b1.chainVoltage idx = b2.chainVoltage idx := by
    unfold Backend.chainVoltage Backend.globalVoltage
    rw [hg, he]
  unfold Backend.resolve_chain_config
  rw [hmid, hf, hv]

theorem resolve_chain_config_noninterference_wit :
    backendC10a.resolve_chain_config 1 = backendC10b.resolve_chain_config 1 :=
  resolve_chain_config_noninterference backendC10a backendC10b 1 rfl rfl

/-- C6: the midstate count of a resolved chain configuration is derived
solely from the global boost flag (default enabled): 4 unless the flag is
explicitly false, else 1; neither the per-unit table nor the unit index
influences it. -/
theorem midstate_count_from_boost (b : Backend) (idx : Nat) (cfg : ResolvedChainConfig)
    (h : b.resolve_chain_config idx = Except.ok cfg) :
    cfg.midstate_count =
        MidstateCount.new
          (match b.hash_chain_global.bind HashChainGlobal.asic_boost with
           | Option.some false => 1
           | _ => ASIC_BOOST_MIDSTATE_COUNT) ∧
      ∀ chains idx2 cfg2,
        Backend.resolve_chain_config { b with hash_chains := chains } idx2 = Except.ok cfg2 →
        cfg2.midstate_count = cfg.midstate_count := by
  have h1 := (Backend.resolve_chain_config_ok b idx cfg h).1
  constructor
  · rw [h1]
    unfold Backend.midstate_count
    cases hb : b.hash_chain_global.bind HashChainGlobal.asic_boost with
    | none => rfl
    | some v => cases v <;> rfl
  · intro chains idx2 cfg2 h2
    have h3 := (Backend.resolve_chain_config_ok _ idx2 cfg2 h2).1
    rw [h1, h3]
    cases b
    rfl

theorem midstate_count_from_boost_wit :
    ({ midstate_count := MidstateCount.new 4
       frequency := FrequencySettings.from_frequency 650000000
       voltage := ⟨DEFAULT_VOLTAGE⟩ } : ResolvedChainConfig).midstate_count =
        MidstateCount.new
          (match emptyBackend.hash_chain_global.bind HashChainGlobal.asic_boost with
           | Option.some false => 1
           | _ => ASIC_BOOST_MIDSTATE_COUNT) ∧
      ({ midstate_count := MidstateCount.new 4
         frequency := FrequencySettings.from_frequency 700000000
         voltage := ⟨DEFAULT_VOLTAGE⟩ } : ResolvedChainConfig).midstate_count =
        ({ midstate_count := MidstateCount.new 4
           frequency := FrequencySettings.from_frequency 650000000
           voltage := ⟨DEFAULT_VOLTAGE⟩ } : ResolvedChainConfig).midstate_count :=
  ⟨(midstate_count_from_boost emptyBackend 3 _ rfl).1,
    (midstate_count_from_boost emptyBackend 3 _ rfl).2 backendC1.hash_chains 2 _ rfl⟩

/-- C7: resolving a unit fails (fatally, embedding the source's panic) if
and only if the resolved voltage falls outside the physically valid
voltage range of the driver representation; a voltage inside the range
always yields a resolved configuration carrying it. -/
theorem voltage_range_fatal (b : Backend) (idx : Nat) :
    ((∃ e, b.resolve_chain_config idx = Except.error e) ↔
        power.voltageInRange (b.chainVoltage idx).value = false) ∧
      (power.voltageInRange (b.chainVoltage idx).value = true →
        ∃ cfg, b.resolve_chain_config idx = Except.ok cfg ∧
          cfg.voltage.volts = (b.chainVoltage idx).value) := by
  unfold Backend.resolve_chain_config
  rw [power.from_volts_spec]
  cases hr : power.voltageInRange (b.chainVoltage idx).value with
  | false =>
      refine ⟨⟨fun _ => rfl, fun _ => ⟨"bad voltage requested", rfl⟩⟩, fun hc => ?_⟩
      cases hc
  | true =>
      refine ⟨⟨fun ⟨e, he⟩ => ?_, fun hc => ?_⟩, fun _ => ⟨_, rfl, rfl⟩⟩
      · cases he
      · cases hc

theorem voltage_range_fatal_wit :
    ((∃ e, emptyBackend.resolve_chain_config 1 = Except.error e) ↔
        power.voltageInRange (emptyBackend.chainVoltage 1).value = false) ∧
      (power.voltageInRange (emptyBackend.chainVoltage 1).value = true →
        ∃ cfg, emptyBackend.resolve_chain_config 1 = Except.ok cfg ∧
          cfg.voltage.volts = (emptyBackend.chainVoltage 1).value) :=
  voltage_range_fatal emptyBackend 1

theorem Backend.fan_zero_check (b : Backend) :
    (b.fan_speed.eq_some 0 && b.min_fans.eq_some 0) =
      decide (b.resolvedFanSpeed = 0 ∧ b.resolvedMinFans = 0) := by
  have hs :=
    OptionDefault.eq_some_new (b.fan_control.bind FanControl.speed) DEFAULT_FAN_SPEED 0
      (by decide)
  have hm :=
    OptionDefault.eq_some_new (b.fan_control.bind FanControl.min_fans) DEFAULT_MIN_FANS 0
      (by decide)
  unfold Backend.resolvedFanSpeed Backend.resolvedMinFans Backend.fan_speed Backend.min_fans
  rw [hs, hm]
  by_cases h1 : (OptionDefault.new (b.fan_control.bind FanControl.speed) DEFAULT_FAN_SPEED).value = 0 <;>
    by_cases h2 :
      (OptionDefault.new (b.fan_control.bind FanControl.min_fans) DEFAULT_MIN_FANS).value = 0 <;>
    simp [h1, h2]

/-- C2: under Manual or Disable mode the resolved fan configuration is
absent exactly when the resolved fan speed and the resolved minimum-fan
count are both zero, and otherwise is the fixed-speed configuration built
from those two resolved values (so fan speed 0 with min_fans 1 stays
present at speed 0). -/
theorem manual_disable_fan_config (b : Backend)
    (h : b.resolvedMode = TempControlMode.Manual ∨ b.resolvedMode = TempControlMode.Disable) :
    (b.resolve_monitor_config).1.fan_config =
      (if b.resolvedFanSpeed = 0 ∧ b.resolvedMinFans = 0 then
        Option.none
      else
        Option.some
          { mode := monitor.FanControlMode.FixedSpeed (fan.Speed.new b.resolvedFanSpeed)
            min_fans := b.resolvedMinFans }) := by
  have hz := Backend.fan_zero_check b
  rcases h with h | h <;>
    · simp only [Backend.resolve_monitor_config, h, hz]
      by_cases hp : b.resolvedFanSpeed = 0 ∧ b.resolvedMinFans = 0 <;> simp [hp]

theorem manual_disable_fan_config_wit :
    (backendC2.resolve_monitor_config).1.fan_config =
      (if backendC2.resolvedFanSpeed = 0 ∧ backendC2.resolvedMinFans = 0 then
        Option.none
      else
        Option.some
          { mode := monitor.FanControlMode.FixedSpeed (fan.Speed.new backendC2.resolvedFanSpeed)
            min_fans := backendC2.resolvedMinFans }) :=
  manual_disable_fan_config backendC2 (Or.inl rfl)

/-- C4: the resolved thermal configuration is absent exactly under
Disable mode — whatever thresholds were supplied — and under Auto or
Manual mode carries the resolved hot and dangerous thresholds. -/
theorem thermal_config_by_mode (b : Backend) :
    (b.resolve_monitor_config).1.temp_config =
      (match b.resolvedMode with
       | TempControlMode.Disable => Option.none
       | _ =>
           Option.some
             { dangerous_temp := b.resolvedDangerousTemp
               hot_temp := b.resolvedHotTemp }) := by
  cases hm : b.resolvedMode <;> simp only [Backend.resolve_monitor_config, hm]

/-- C5: under Auto mode the resolved fan configuration is present and in
target-temperature mode at the resolved target temperature; replacing the
supplied fan speed by any other value leaves it unchanged. -/
theorem auto_fan_config (b : Backend) (h : b.resolvedMode = TempControlMode.Auto) :
    (b.resolve_monitor_config).1.fan_config =
        Option.some
          { mode := monitor.FanControlMode.TargetTemperature b.resolvedTargetTemp
            min_fans := b.resolvedMinFans } ∧
      ∀ speed, ((b.withFanSpeed speed).resolve_monitor_config).1.fan_config =
        (b.resolve_monitor_config).1.fan_config := by
  have hmain : ∀ b2 : Backend, b2.resolvedMode = TempControlMode.Auto →
      (b2.resolve_monitor_config).1.fan_config =
        Option.some
          { mode := monitor.FanControlMode.TargetTemperature b2.resolvedTargetTemp
            min_fans := b2.resolvedMinFans } := by
    intro b2 h2
    simp only [Backend.resolve_monitor_config, h2]
  refine ⟨hmain b h, fun speed => ?_⟩
  have hmode : (b.withFanSpeed speed).resolvedMode = TempControlMode.Auto := by
    have : (b.withFanSpeed speed).resolvedMode = b.resolvedMode := by cases b; rfl
    rw [this, h]
  have htt : (b.withFanSpeed speed).resolvedTargetTemp = b.resolvedTargetTemp := by
    cases b; rfl
  have hmf : (b.withFanSpeed speed).resolvedMinFans = b.resolvedMinFans := by
    cases b; rfl
  rw [hmain _ hmode, hmain b h, htt, hmf]

theorem auto_fan_config_wit :
    (backendC5.resolve_monitor_config).1.fan_config =
        Option.some
          { mode := monitor.FanControlMode.TargetTemperature backendC5.resolvedTargetTemp
            min_fans := backendC5.resolvedMinFans } ∧
      ((backendC5.withFanSpeed (Option.some 80)).resolve_monitor_config).1.fan_config =
        (backendC5.resolve_monitor_config).1.fan_config :=
  ⟨(auto_fan_config backendC5 rfl).1, (auto_fan_config backendC5 rfl).2 (Option.some 80)⟩

theorem checkHashChainKeys_ok_iff (l : List (String × HashChain)) :
    checkHashChainKeys l = Except.ok () ↔ ∀ p ∈ l, validChainKey p.1 = true := by
  induction l with
  | nil => simp [checkHashChainKeys]
  | cons p rest ih =>
      cases p with
      | mk idx hc =>
          cases hp : parseUsize idx with
          | none => simp [checkHashChainKeys, hp, validChainKey]
          | some n =>
              by_cases hr : HASH_CHAIN_INDEX_MIN ≤ n ∧ n ≤ HASH_CHAIN_INDEX_MAX
              · simp [checkHashChainKeys, hp, hr, validChainKey, ih]
              · simp [checkHashChainKeys, hp, hr, validChainKey]

/-- C3: for a record that passes the format checks and carries a per-unit
table, loading fails exactly when some key either does not parse as an
integer or parses outside 1..=9, and succeeds (returning the record)
exactly when every key parses into that range. -/
theorem per_chain_key_validation (b : Backend) (chains : List (String × HashChain))
    (hm : b.format.model = FORMAT_MODEL) (hv : b.format.version = FORMAT_VERSION)
    (hc : b.hash_chains = Option.some chains) :
    ((∃ e, Backend.parse b = Except.error e) ↔ ∃ p ∈ chains, validChainKey p.1 = false) ∧
      (Backend.parse b = Except.ok b ↔ ∀ p ∈ chains, validChainKey p.1 = true) := by
  have hparse : Backend.parse b =
      (match checkHashChainKeys chains with
       | Except.ok _ => Except.ok b
       | Except.error e => Except.error e) := by
    simp [Backend.parse, hm, hv, hc]
  rw [hparse]
  cases hk : checkHashChainKeys chains with
  | ok u =>
      cases u
      have hall := (checkHashChainKeys_ok_iff chains).mp hk
      refine ⟨⟨fun ⟨e, he⟩ => absurd he (by simp), fun ⟨p, hp, hfalse⟩ => ?_⟩,
        ⟨fun _ => hall, fun _ => rfl⟩⟩
      rw [hall p hp] at hfalse
      cases hfalse
  | error e =>
      have hnall : ¬ ∀ p ∈ chains, validChainKey p.1 = true := by
        intro hall
        rw [(checkHashChainKeys_ok_iff chains).mpr hall] at hk
        cases hk
      have hex : ∃ p ∈ chains, validChainKey p.1 = false := by
        push_neg at hnall
        obtain ⟨p, hp, hne⟩ := hnall
        exact ⟨p, hp, by simpa using hne⟩
      exact ⟨⟨fun _ => hex, fun _ => ⟨e, rfl⟩⟩,
        ⟨fun hok => absurd hok (by simp), fun hall => absurd hall hnall⟩⟩

theorem per_chain_key_validation_wit :
    ((∃ e, Backend.parse backendC3 = Except.error e) ↔
        ∃ p ∈ [("5", ({ frequency := Option.none, voltage := Option.none } : HashChain)),
               ("abc", ({ frequency := Option.none, voltage := Option.none } : HashChain))],
          validChainKey p.1 = false) ∧
      (Backend.parse backendC3 = Except.ok backendC3 ↔
        ∀ p ∈ [("5", ({ frequency := Option.none, voltage := Option.none } : HashChain)),
               ("abc", ({ frequency := Option.none, voltage := Option.none } : HashChain))],
          validChainKey p.1 = true) :=
  per_chain_key_validation backendC3 _ rfl rfl rfl

/-- C8: a model mismatch fails the load with the model-incompatibility
error; a version mismatch (under the matching model under which it is
reached) fails it with the version-incompatibility error; a version
mismatch always fails the load; and a failing load never also returns a
configuration. -/
theorem format_compat_errors (b : Backend) :
    (b.format.model ≠ FORMAT_MODEL →
        Backend.parse b = Except.error ("incompatible format model " ++ b.format.model)) ∧
      (b.format.model = FORMAT_MODEL → b.format.version ≠ FORMAT_VERSION →
        Backend.parse b = Except.error ("incompatible format version " ++ b.format.version)) ∧
      (b.format.version ≠ FORMAT_VERSION → ∃ e, Backend.parse b = Except.error e) ∧
      ∀ e cfg, Backend.parse b = Except.error e → Backend.parse b ≠ Except.ok cfg := by
  refine ⟨fun hm => ?_, fun hm hv => ?_, fun hv => ?_, fun e cfg he hok => ?_⟩
  · unfold Backend.parse
    rw [if_pos hm]
  · unfold Backend.parse
    rw [if_neg (fun hh => hh hm), if_pos hv]
  · by_cases hm : b.format.model = FORMAT_MODEL
    · exact ⟨_, by unfold Backend.parse; rw [if_neg (fun hh => hh hm), if_pos hv]⟩
    · exact ⟨_, by unfold Backend.parse; rw [if_pos hm]⟩
  · rw [he] at hok
    cases hok

theorem format_compat_errors_wit :
    Backend.parse backendC8 =
        Except.error ("incompatible format model " ++ backendC8.format.model) ∧
      Backend.parse backendC8 ≠ Except.ok backendC8 :=
  ⟨(format_compat_errors backendC8).1 (by decide),
    (format_compat_errors backendC8).2.2.2 _ backendC8
      ((format_compat_errors backendC8).1 (by decide))⟩

end S9Config
